import Mathlib

/-!
Verification development for the voice-receptionist session core (`server.js`).

The session core is a per-connection state machine: a dialogue history, the
two booleans `isAiSpeaking` and `isInterrupted`, the WebSocket send channel,
and the asynchronous work started by `processTranscript` and
`sendInitialGreeting`.  We embed it as a small-step machine.  Each step is one
synchronous JavaScript execution block, which runs atomically on the event
loop:

* `Action.recvEvent t f` — the `recognizeStream` data handler fires with a
  transcript (`none` models an absent field) and an `isFinal` flag; its
  synchronous block includes the head of `processTranscript` up to the
  suspension at the language-model call.
* `Action.resumeLLM i r` — the language-model promise of in-flight task `i`
  settles with reply `r` (or rejects); the block runs from the first `await`
  in `processTranscript` to the suspension at `synthesizeSpeech`, including
  the first cancellation checkpoint.
* `Action.resumeTTS i r` — the synthesis promise of task `i` settles; the
  block runs the second checkpoint and the audio send.
* `Action.resumeGreeting r` — the synthesis promise inside
  `sendInitialGreeting` settles; the block runs the rest of that function and
  the `.then` callback registered on it.
* `Action.wsClose` — the WebSocket close handler fires.

Collaborator results (replies, audio payloads) are oracle inputs carried by
the actions, so the machine itself is a deterministic, executable function of
the action sequence.
-/

namespace VoiceSession

/-- Entry of the running dialogue history (`conversationHistory` in
`server.js`): a role tag (`"user"` or `"assistant"`) and the text content. -/
structure Entry where
  role : String
  content : String
deriving DecidableEq

/-- Message sent to the caller over the WebSocket: the `stop_playing` control
command or an opaque audio payload. -/
inductive OutMsg where
  | stopPlaying : OutMsg
  | audio : String → OutMsg
deriving DecidableEq

/-- Continuation state of one asynchronous task of the session.  A
`processTranscript` invocation suspends first at the language-model call
(`awaitingLLM`), then at the synthesis call (`awaitingTTS reply`, the reply
already appended to history); `greeting` is the pending
`sendInitialGreeting` call; `done` marks a terminated task. -/
inductive TaskState where
  | greeting : TaskState
  | awaitingLLM : TaskState
  | awaitingTTS : String → TaskState
  | done : TaskState
deriving DecidableEq

/-- The mutable per-connection state captured by the closure in the
`wss.on connection` handler, plus the record of messages sent to the caller. -/
structure SessionState where
  conversationHistory : List Entry
  isAiSpeaking : Bool
  isInterrupted : Bool
  wsOpen : Bool
  sent : List OutMsg
  tasks : List TaskState
deriving DecidableEq

/-- JS `!transcript.trim()` (line 52): true exactly when every character of
the string is whitespace, i.e. when trimming leaves the empty string. -/
def isBlank (s : String) : Bool := s.data.all Char.isWhitespace

/-- Embeds `interruptAi` (lines 40-49): if the agent is speaking, clear
`isAiSpeaking`, set `isInterrupted`, and send `stop_playing` when the socket
is open; otherwise do nothing. -/
def interruptAi (s : SessionState) : SessionState :=
  if s.isAiSpeaking then
    { s with
      isAiSpeaking := false
      isInterrupted := true
      sent := if s.wsOpen then s.sent ++ [OutMsg.stopPlaying] else s.sent }
  else s

/-- Synchronous head of `processTranscript` (lines 51-56): discard a blank
transcript, otherwise append the caller utterance, set `isAiSpeaking`, and
suspend at the language-model call — a new `awaitingLLM` task. -/
def processTranscript (s : SessionState) (transcript : String) : SessionState :=
  if isBlank transcript then s
  else
    { s with
      conversationHistory := s.conversationHistory ++ [⟨"user", transcript⟩]
      isAiSpeaking := true
      tasks := s.tasks ++ [TaskState.awaitingLLM] }

/-- The `recognizeStream` data handler (lines 102-124): drop an absent or
empty transcript, interrupt the agent if it is speaking, and on the
`isInterrupted` and plain paths start `processTranscript` on a final
event. -/
def dataHandler (s : SessionState) (transcript : Option String)
    (isFinal : Bool) : SessionState :=
  match transcript with
  | none => s
  | some t =>
    if t = "" then s
    else
      let s1 := if s.isAiSpeaking then interruptAi s else s
      if s1.isInterrupted then
        if isFinal then processTranscript { s1 with isInterrupted := false } t
        else s1
      else
        if isFinal then processTranscript s1 t else s1

/-- One atomic event-loop block, as delivered by the scheduler. -/
inductive Action where
  | recvEvent : Option String → Bool → Action
  | resumeLLM : Nat → Except Unit String → Action
  | resumeTTS : Nat → Except Unit String → Action
  | resumeGreeting : Except Unit String → Action
  | wsClose : Action

/-- One step of the session machine: run the synchronous block named by the
action on the current state.  Resume actions aimed at a task that is not at
the matching suspension point cannot occur in the real event loop and are
no-ops. -/
def step (s : SessionState) : Action → SessionState
  | Action.recvEvent t f => dataHandler s t f
  | Action.resumeLLM i r =>
    match s.tasks[i]? with
    | some TaskState.awaitingLLM =>
      match r with
      | Except.error _ =>
        { s with isAiSpeaking := false, tasks := s.tasks.set i TaskState.done }
      | Except.ok reply =>
        if s.isAiSpeaking then
          { s with
            conversationHistory := s.conversationHistory ++ [⟨"assistant", reply⟩]
            tasks := s.tasks.set i (TaskState.awaitingTTS reply) }
        else { s with tasks := s.tasks.set i TaskState.done }
    | _ => s
  | Action.resumeTTS i r =>
    match s.tasks[i]? with
    | some (TaskState.awaitingTTS _) =>
      match r with
      | Except.error _ =>
        { s with isAiSpeaking := false, tasks := s.tasks.set i TaskState.done }
      | Except.ok audioContent =>
        if s.isAiSpeaking then
          { s with
            sent := if s.wsOpen then s.sent ++ [OutMsg.audio audioContent] else s.sent
            tasks := s.tasks.set i TaskState.done }
        else { s with tasks := s.tasks.set i TaskState.done }
    | _ => s
  | Action.resumeGreeting r =>
    match s.tasks[0]? with
    | some TaskState.greeting =>
      let s1 := match r with
        | Except.ok audioContent =>
          { s with sent := if s.wsOpen then s.sent ++ [OutMsg.audio audioContent] else s.sent }
        | Except.error _ => s
      let s2 := if s1.isAiSpeaking then { s1 with isAiSpeaking := false } else s1
      { s2 with tasks := s2.tasks.set 0 TaskState.done }
    | _ => s
  | Action.wsClose => { s with wsOpen := false }

/-- State at connection establishment (lines 35-38 and 139-140): empty
history, `isAiSpeaking` set for the greeting, the greeting task pending. -/
def initialState : SessionState :=
  { conversationHistory := []
    isAiSpeaking := true
    isInterrupted := false
    wsOpen := true
    sent := []
    tasks := [TaskState.greeting] }

/-- Run a whole sequence of scheduler actions. -/
def steps (s : SessionState) (acts : List Action) : SessionState :=
  acts.foldl step s

/-- Does an optional transcript pass the `!transcript` guard on line 106? -/
def usableText : Option String → Bool
  | none => false
  | some t => t != ""

/-- Does some event of the list pass the `!transcript` guard? -/
def hasNonEmpty (ts : List (Option String)) : Bool := ts.any usableText

/-- Scheduler actions for a burst of interim (non-final) recognition events. -/
def partialEvents (ts : List (Option String)) : List Action :=
  ts.map fun ot => Action.recvEvent ot false

theorem steps_nil (s : SessionState) : steps s [] = s := rfl

theorem steps_cons (s : SessionState) (a : Action) (acts : List Action) :
    steps s (a :: acts) = steps (step s a) acts := rfl

theorem concat_getElem {α : Type} (l : List α) (a : α) :
    (l ++ [a])[l.length]? = some a := by
  induction l with
  | nil => rfl
  | cons x xs ih => simpa using ih

theorem concat_set {α : Type} (l : List α) (a b : α) :
    (l ++ [a]).set l.length b = l ++ [b] := by
  induction l with
  | nil => rfl
  | cons x xs ih => simpa [List.set] using ih

theorem step_recv_absent (s : SessionState) (f : Bool) :
    step s (Action.recvEvent none f) = s := rfl

theorem step_recv_unusable (s : SessionState) (ot : Option String) (f : Bool)
    (hu : usableText ot = false) : step s (Action.recvEvent ot f) = s := by
  cases ot with
  | none => rfl
  | some t =>
    have h0 : t = "" := by simpa [usableText] using hu
    simp [step, dataHandler, h0]

theorem step_partial_interrupted (s : SessionState) (ot : Option String)
    (h1 : s.isAiSpeaking = false) (h2 : s.isInterrupted = true) :
    step s (Action.recvEvent ot false) = s := by
  cases ot with
  | none => rfl
  | some t =>
    by_cases h0 : t = "" <;> simp [step, dataHandler, h0, h1, h2]

theorem step_partial_speaking (s : SessionState) (t : String)
    (h1 : s.isAiSpeaking = true) (h0 : t ≠ "") :
    step s (Action.recvEvent (some t) false)
      = { s with
          isAiSpeaking := false
          isInterrupted := true
          sent := if s.wsOpen then s.sent ++ [OutMsg.stopPlaying] else s.sent } := by
  simp [step, dataHandler, interruptAi, h0, h1]

theorem step_final_idle (s : SessionState) (t : String)
    (h1 : s.isAiSpeaking = false) (h2 : s.isInterrupted = false)
    (hb : isBlank t = false) :
    step s (Action.recvEvent (some t) true)
      = { s with
          conversationHistory := s.conversationHistory ++ [⟨"user", t⟩]
          isAiSpeaking := true
          tasks := s.tasks ++ [TaskState.awaitingLLM] } := by
  have h0 : t ≠ "" := by
    intro he
    subst he
    exact absurd hb (by decide)
  simp [step, dataHandler, processTranscript, h0, h1, h2, hb]

theorem step_final_interrupted (s : SessionState) (t : String)
    (h1 : s.isAiSpeaking = false) (h2 : s.isInterrupted = true)
    (hb : isBlank t = false) :
    step s (Action.recvEvent (some t) true)
      = { s with
          isInterrupted := false
          conversationHistory := s.conversationHistory ++ [⟨"user", t⟩]
          isAiSpeaking := true
          tasks := s.tasks ++ [TaskState.awaitingLLM] } := by
  have h0 : t ≠ "" := by
    intro he
    subst he
    exact absurd hb (by decide)
  simp [step, dataHandler, processTranscript, h0, h1, h2, hb]

theorem step_llm_error (s : SessionState) (i : Nat)
    (h : s.tasks[i]? = some TaskState.awaitingLLM) :
    step s (Action.resumeLLM i (Except.error ()))
      = { s with isAiSpeaking := false, tasks := s.tasks.set i TaskState.done } := by
  simp [step, h]

theorem step_llm_ok (s : SessionState) (i : Nat) (r : String)
    (h : s.tasks[i]? = some TaskState.awaitingLLM)
    (hsp : s.isAiSpeaking = true) :
    step s (Action.resumeLLM i (Except.ok r))
      = { s with
          conversationHistory := s.conversationHistory ++ [⟨"assistant", r⟩]
          tasks := s.tasks.set i (TaskState.awaitingTTS r) } := by
  simp [step, h, hsp]

theorem step_tts_error (s : SessionState) (i : Nat) (r : String)
    (h : s.tasks[i]? = some (TaskState.awaitingTTS r)) :
    step s (Action.resumeTTS i (Except.error ()))
      = { s with isAiSpeaking := false, tasks := s.tasks.set i TaskState.done } := by
  simp [step, h]

theorem step_tts_ok (s : SessionState) (i : Nat) (r a : String)
    (h : s.tasks[i]? = some (TaskState.awaitingTTS r))
    (hsp : s.isAiSpeaking = true) :
    step s (Action.resumeTTS i (Except.ok a))
      = { s with
          sent := if s.wsOpen then s.sent ++ [OutMsg.audio a] else s.sent
          tasks := s.tasks.set i TaskState.done } := by
  simp [step, h, hsp]

theorem step_history (s : SessionState) (a : Action) :
    ∃ l, (step s a).conversationHistory = s.conversationHistory ++ l := by
  obtain ⟨hist, sp, intr, ws, sent, tasks⟩ := s
  cases a with
  | recvEvent ot f =>
    cases ot with
    | none => exact ⟨[], by simp [step, dataHandler]⟩
    | some t =>
      by_cases h0 : t = ""
      · exact ⟨[], by simp [step, dataHandler, h0]⟩
      · by_cases hb : isBlank t = true
        · exact ⟨[], by
            cases sp <;> cases intr <;> cases f <;>
              simp_all [step, dataHandler, interruptAi, processTranscript]⟩
        · cases f
          · exact ⟨[], by
              cases sp <;> cases intr <;>
                simp_all [step, dataHandler, interruptAi, processTranscript]⟩
          · exact ⟨[⟨"user", t⟩], by
              cases sp <;> cases intr <;>
                simp_all [step, dataHandler, interruptAi, processTranscript]⟩
  | resumeLLM i r =>
    cases hg : tasks[i]? with
    | none => exact ⟨[], by simp [step, hg]⟩
    | some tk =>
      cases tk with
      | greeting => exact ⟨[], by cases r <;> simp_all [step]⟩
      | awaitingLLM =>
        cases r with
        | error e => exact ⟨[], by simp_all [step]⟩
        | ok reply =>
          cases sp
          · exact ⟨[], by simp_all [step]⟩
          · exact ⟨[⟨"assistant", reply⟩], by simp_all [step]⟩
      | awaitingTTS reply => exact ⟨[], by cases r <;> simp_all [step]⟩
      | done => exact ⟨[], by cases r <;> simp_all [step]⟩
  | resumeTTS i r =>
    cases hg : tasks[i]? with
    | none => exact ⟨[], by simp [step, hg]⟩
    | some tk =>
      exact ⟨[], by cases tk <;> cases r <;> cases sp <;> simp_all [step]⟩
  | resumeGreeting r =>
    cases hg : tasks[0]? with
    | none => exact ⟨[], by simp [step, hg]⟩
    | some tk =>
      exact ⟨[], by cases tk <;> cases r <;> cases sp <;> simp_all [step]⟩
  | wsClose => exact ⟨[], by simp [step]⟩

theorem steps_history (s : SessionState) (acts : List Action) :
    ∃ l, (steps s acts).conversationHistory = s.conversationHistory ++ l := by
  induction acts generalizing s with
  | nil => exact ⟨[], by simp [steps]⟩
  | cons a acts ih =>
    obtain ⟨l1, e1⟩ := step_history s a
    obtain ⟨l2, e2⟩ := ih (step s a)
    exact ⟨l1 ++ l2, by rw [steps_cons, e2, e1, List.append_assoc]⟩

theorem partialEvents_cons (ot : Option String) (ts : List (Option String)) :
    partialEvents (ot :: ts) = Action.recvEvent ot false :: partialEvents ts :=
  rfl

theorem steps_partial_noop (s : SessionState)
    (h1 : s.isAiSpeaking = false) (h2 : s.isInterrupted = true)
    (ts : List (Option String)) : steps s (partialEvents ts) = s := by
  induction ts with
  | nil => rfl
  | cons ot ts ih =>
    rw [partialEvents_cons, steps_cons, step_partial_interrupted s ot h1 h2]
    exact ih

theorem flags_step (s : SessionState) (a : Action)
    (h : (s.isAiSpeaking && s.isInterrupted) = false) :
    ((step s a).isAiSpeaking && (step s a).isInterrupted) = false := by
  obtain ⟨hist, sp, intr, ws, sent, tasks⟩ := s
  cases a with
  | recvEvent ot f =>
    cases ot with
    | none => exact h
    | some t =>
      by_cases h0 : t = ""
      · simpa [step, dataHandler, h0] using h
      · by_cases hb : isBlank t = true <;> cases sp <;> cases intr <;> cases f <;>
          simp_all [step, dataHandler, interruptAi, processTranscript]
  | resumeLLM i r =>
    cases hg : tasks[i]? with
    | none => simpa [step, hg] using h
    | some tk => cases tk <;> cases r <;> cases sp <;> simp_all [step]
  | resumeTTS i r =>
    cases hg : tasks[i]? with
    | none => simpa [step, hg] using h
    | some tk => cases tk <;> cases r <;> cases sp <;> simp_all [step]
  | resumeGreeting r =>
    cases hg : tasks[0]? with
    | none => simpa [step, hg] using h
    | some tk => cases tk <;> cases r <;> cases sp <;> simp_all [step]
  | wsClose => exact h

theorem flags_steps (acts : List Action) :
    ((steps initialState acts).isAiSpeaking
      && (steps initialState acts).isInterrupted) = false := by
  suffices hgen : ∀ (s : SessionState), (s.isAiSpeaking && s.isInterrupted) = false →
      ((steps s acts).isAiSpeaking && (steps s acts).isInterrupted) = false by
    exact hgen initialState rfl
  induction acts with
  | nil => exact fun s h => h
  | cons a acts ih => exact fun s h => ih (step s a) (flags_step s a h)

theorem run_turn (s : SessionState) (t r a : String)
    (h1 : s.isAiSpeaking = false) (h2 : s.isInterrupted = false)
    (hw : s.wsOpen = true) (hb : isBlank t = false) :
    steps s [Action.recvEvent (some t) true,
             Action.resumeLLM s.tasks.length (Except.ok r),
             Action.resumeTTS s.tasks.length (Except.ok a)]
      = { s with
          conversationHistory :=
            s.conversationHistory ++ [⟨"user", t⟩, ⟨"assistant", r⟩]
          isAiSpeaking := true
          sent := s.sent ++ [OutMsg.audio a]
          tasks := s.tasks ++ [TaskState.done] } := by
  rw [steps_cons, step_final_idle s t h1 h2 hb]
  rw [steps_cons, step_llm_ok _ s.tasks.length r (by simpa using concat_getElem s.tasks TaskState.awaitingLLM) rfl]
  rw [steps_cons, step_tts_ok _ s.tasks.length r a (by simpa [concat_set] using concat_getElem s.tasks (TaskState.awaitingTTS r)) rfl]
  simp [steps, concat_set, hw]

/-- C1: the claim that at most one Response Pipeline invocation is ever past
Stage 1 and unterminated fails on the code.  In this trace the greeting
completes, "hello" finalizes and starts turn 1, a partial "wait" interrupts
it, "never mind" finalizes and starts turn 2 (setting `isAiSpeaking` back to
true), and then both language-model calls settle: the superseded turn passes
its checkpoint because it reads the shared flag that turn 2 re-set, so both
invocations append a reply and stand past Stage 1 at the same instant. -/
theorem overlapping_turns_bug :
    (steps initialState
      [Action.resumeGreeting (Except.ok "g"),
       Action.recvEvent (some "hello") true,
       Action.recvEvent (some "wait") false,
       Action.recvEvent (some "never mind") true,
       Action.resumeLLM 1 (Except.ok "replyA"),
       Action.resumeLLM 2 (Except.ok "replyB")]).tasks
      = [TaskState.done, TaskState.awaitingTTS "replyA",
         TaskState.awaitingTTS "replyB"]
    ∧ ((steps initialState
      [Action.resumeGreeting (Except.ok "g"),
       Action.recvEvent (some "hello") true,
       Action.recvEvent (some "wait") false,
       Action.recvEvent (some "never mind") true,
       Action.resumeLLM 1 (Except.ok "replyA"),
       Action.resumeLLM 2 (Except.ok "replyB")]).tasks.countP
        (fun tk => match tk with
          | TaskState.awaitingTTS _ => true
          | _ => false)) = 2 := by
  decide

/-- C2: the claim that cancellation signaled before Stage 1 completes
suppresses the history append and the audio delivery fails on the code.  Here
turn 1 ("book me in") is cancelled by the partial "uh" before its
language-model call settles, and "cancel that" starts turn 2; when turn 1
then resumes, its checkpoints read the shared `isAiSpeaking` flag that turn 2
re-set, so the cancelled turn still appends its reply and still delivers its
audio. -/
theorem stale_checkpoint_bug :
    (steps initialState
      [Action.resumeGreeting (Except.ok "g"),
       Action.recvEvent (some "book me in") true,
       Action.recvEvent (some "uh") false,
       Action.recvEvent (some "cancel that") true,
       Action.resumeLLM 1 (Except.ok "staleReply"),
       Action.resumeTTS 1 (Except.ok "staleAudio")]).conversationHistory
      = [⟨"user", "book me in"⟩, ⟨"user", "cancel that"⟩,
         ⟨"assistant", "staleReply"⟩]
    ∧ (steps initialState
      [Action.resumeGreeting (Except.ok "g"),
       Action.recvEvent (some "book me in") true,
       Action.recvEvent (some "uh") false,
       Action.recvEvent (some "cancel that") true,
       Action.resumeLLM 1 (Except.ok "staleReply"),
       Action.resumeTTS 1 (Except.ok "staleAudio")]).sent
      = [OutMsg.audio "g", OutMsg.stopPlaying, OutMsg.audio "staleAudio"] := by
  decide

/-- C3 counterexample: a whitespace-only transcript is not discarded without
a transition.  While the agent is speaking ("hello" turn in flight), a
partial event whose text is a single space passes the `!transcript` guard
and triggers the interruption path: the state moves to Interrupted and a
`stop_playing` signal is sent. -/
theorem whitespace_partial_transitions :
    (steps initialState
      [Action.resumeGreeting (Except.ok "g"),
       Action.recvEvent (some "hello") true]).isInterrupted = false
    ∧ (steps initialState
      [Action.resumeGreeting (Except.ok "g"),
       Action.recvEvent (some "hello") true,
       Action.recvEvent (some " ") false]).isInterrupted = true
    ∧ (steps initialState
      [Action.resumeGreeting (Except.ok "g"),
       Action.recvEvent (some "hello") true,
       Action.recvEvent (some " ") false]).sent
      = [OutMsg.audio "g", OutMsg.stopPlaying] := by
  decide

/-- C3 as amended: an absent transcript and an empty transcript are discarded
by the data handler with no state change at all; a transcript that is blank
(all whitespace) can still drive the interruption transitions, but it never
causes a dialogue-history append and never starts a turn, because the
`processTranscript` trim guard discards it. -/
theorem blank_event_no_append (s : SessionState) (f : Bool) (t : String)
    (hb : isBlank t = true) :
    step s (Action.recvEvent none f) = s ∧
    (t = "" → step s (Action.recvEvent (some t) f) = s) ∧
    (step s (Action.recvEvent (some t) f)).conversationHistory
      = s.conversationHistory ∧
    (step s (Action.recvEvent (some t) f)).tasks = s.tasks := by
  refine ⟨step_recv_absent s f, fun h0 => by simp [step, dataHandler, h0], ?_, ?_⟩
  all_goals
    obtain ⟨hist, sp, intr, ws, sent, tasks⟩ := s
    by_cases h0 : t = ""
  all_goals try simp [step, dataHandler, h0]
  all_goals
    cases sp <;> cases intr <;> cases f <;>
      simp_all [step, dataHandler, interruptAi, processTranscript]

/-- Closed witness for the amended C3 theorem, at the whitespace-only
transcript consisting of one space, in the initial session state. -/
theorem blank_event_no_append_witness :
    step initialState (Action.recvEvent none false) = initialState ∧
    (" " = "" → step initialState (Action.recvEvent (some " ") false)
      = initialState) ∧
    (step initialState (Action.recvEvent (some " ") false)).conversationHistory
      = initialState.conversationHistory ∧
    (step initialState (Action.recvEvent (some " ") false)).tasks
      = initialState.tasks :=
  blank_event_no_append initialState false " " (by decide)

/-- C6 counterexample: the greeting turn does not necessarily complete before
caller input is processed, and its completion can clear the agent-state flag
of a later-started turn.  Here a partial "hi" interrupts the still-pending
greeting, "book a detail" finalizes and starts a new turn (flag set), and
only then does the greeting synthesis settle: its `.then` callback sees the
flag set and clears it, cancelling the unrelated new turn. -/
theorem greeting_race_counterexample :
    (steps initialState
      [Action.recvEvent (some "hi") false,
       Action.recvEvent (some "book a detail") true]).isAiSpeaking = true
    ∧ (steps initialState
      [Action.recvEvent (some "hi") false,
       Action.recvEvent (some "book a detail") true,
       Action.resumeGreeting (Except.ok "g")]).isAiSpeaking = false
    ∧ (steps initialState
      [Action.recvEvent (some "hi") false,
       Action.recvEvent (some "book a detail") true,
       Action.resumeGreeting (Except.ok "g")]).tasks
      = [TaskState.done, TaskState.awaitingLLM] := by
  decide

/-- C6 as amended: when the greeting completes before any caller event is
handled, the session is left in Idle (flag cleared, not interrupted, empty
history), and a further greeting completion is a no-op, so in that schedule
the greeting only ever clears its own flag. -/
theorem greeting_first_is_idle (r r2 : Except Unit String) :
    (step initialState (Action.resumeGreeting r)).isAiSpeaking = false ∧
    (step initialState (Action.resumeGreeting r)).isInterrupted = false ∧
    (step initialState (Action.resumeGreeting r)).conversationHistory = [] ∧
    step (step initialState (Action.resumeGreeting r)) (Action.resumeGreeting r2)
      = step initialState (Action.resumeGreeting r) := by
  cases r <;> cases r2 <;> simp [step, initialState]

/-- C4: starting from AgentSpeaking, a burst of interim (non-final) events
containing at least one that passes the `!transcript` guard flips the state
to Interrupted exactly once and sends at most one `stop_playing` signal
(exactly one when the socket is open, none otherwise); history and tasks are
untouched; and once Interrupted, any further burst of interim events is a
complete no-op. -/
theorem cancellation_idempotent (s : SessionState)
    (ts1 ts2 : List (Option String))
    (h1 : s.isAiSpeaking = true) (h2 : s.isInterrupted = false)
    (hu : hasNonEmpty ts1 = true) :
    (steps s (partialEvents ts1)).isAiSpeaking = false ∧
    (steps s (partialEvents ts1)).isInterrupted = true ∧
    (steps s (partialEvents ts1)).sent
      = s.sent ++ (if s.wsOpen then [OutMsg.stopPlaying] else []) ∧
    (steps s (partialEvents ts1)).conversationHistory = s.conversationHistory ∧
    (steps s (partialEvents ts1)).tasks = s.tasks ∧
    steps (steps s (partialEvents ts1)) (partialEvents ts2)
      = steps s (partialEvents ts1) := by
  revert hu
  induction ts1 with
  | nil => intro hu; simp [hasNonEmpty] at hu
  | cons ot ts ih =>
    intro hu
    by_cases u : usableText ot = true
    · obtain ⟨t, rfl⟩ : ∃ t, ot = some t := by
        cases ot with
        | none => simp [usableText] at u
        | some t => exact ⟨t, rfl⟩
      have h0 : t ≠ "" := by simpa [usableText] using u
      have e2 := steps_partial_noop
        { s with
          isAiSpeaking := false
          isInterrupted := true
          sent := if s.wsOpen then s.sent ++ [OutMsg.stopPlaying] else s.sent }
        rfl rfl ts
      have e3 := steps_partial_noop
        { s with
          isAiSpeaking := false
          isInterrupted := true
          sent := if s.wsOpen then s.sent ++ [OutMsg.stopPlaying] else s.sent }
        rfl rfl ts2
      rw [partialEvents_cons, steps_cons, step_partial_speaking s t h1 h0, e2]
      refine ⟨rfl, rfl, ?_, rfl, rfl, e3⟩
      cases hw : s.wsOpen <;> simp [hw]
    · have u' : usableText ot = false := by simpa using u
      have hu' : hasNonEmpty ts = true := by
        simpa [hasNonEmpty, u'] using hu
      rw [partialEvents_cons, steps_cons, step_recv_unusable s ot false u']
      exact ih hu'

/-- Closed witness for C4: an AgentSpeaking state with one turn in flight,
hit by the interim burst "uh", "uh huh", followed by the later burst "wait";
the conclusion is obtained by applying the C4 theorem. -/
theorem cancellation_idempotent_witness :
    (steps
      { conversationHistory := [⟨"user", "hello"⟩]
        isAiSpeaking := true
        isInterrupted := false
        wsOpen := true
        sent := []
        tasks := [TaskState.done, TaskState.awaitingLLM] }
      (partialEvents [some "uh", some "uh huh"])).isAiSpeaking = false ∧
    (steps
      { conversationHistory := [⟨"user", "hello"⟩]
        isAiSpeaking := true
        isInterrupted := false
        wsOpen := true
        sent := []
        tasks := [TaskState.done, TaskState.awaitingLLM] }
      (partialEvents [some "uh", some "uh huh"])).isInterrupted = true ∧
    (steps
      { conversationHistory := [⟨"user", "hello"⟩]
        isAiSpeaking := true
        isInterrupted := false
        wsOpen := true
        sent := []
        tasks := [TaskState.done, TaskState.awaitingLLM] }
      (partialEvents [some "uh", some "uh huh"])).sent
      = [] ++ (if ({ conversationHistory := [⟨"user", "hello"⟩]
                     isAiSpeaking := true
                     isInterrupted := false
                     wsOpen := true
                     sent := []
                     tasks := [TaskState.done, TaskState.awaitingLLM] }
                    : SessionState).wsOpen
               then [OutMsg.stopPlaying] else []) ∧
    (steps
      { conversationHistory := [⟨"user", "hello"⟩]
        isAiSpeaking := true
        isInterrupted := false
        wsOpen := true
        sent := []
        tasks := [TaskState.done, TaskState.awaitingLLM] }
      (partialEvents [some "uh", some "uh huh"])).conversationHistory
      = [⟨"user", "hello"⟩] ∧
    (steps
      { conversationHistory := [⟨"user", "hello"⟩]
        isAiSpeaking := true
        isInterrupted := false
        wsOpen := true
        sent := []
        tasks := [TaskState.done, TaskState.awaitingLLM] }
      (partialEvents [some "uh", some "uh huh"])).tasks
      = [TaskState.done, TaskState.awaitingLLM] ∧
    steps
      (steps
        { conversationHistory := [⟨"user", "hello"⟩]
          isAiSpeaking := true
          isInterrupted := false
          wsOpen := true
          sent := []
          tasks := [TaskState.done, TaskState.awaitingLLM] }
        (partialEvents [some "uh", some "uh huh"]))
      (partialEvents [some "wait"])
      = steps
        { conversationHistory := [⟨"user", "hello"⟩]
          isAiSpeaking := true
          isInterrupted := false
          wsOpen := true
          sent := []
          tasks := [TaskState.done, TaskState.awaitingLLM] }
        (partialEvents [some "uh", some "uh huh"]) :=
  cancellation_idempotent _ [some "uh", some "uh huh"] [some "wait"]
    rfl rfl (by decide)

/-- C5: a final event with usable (non-blank) text received while Idle
appends exactly one caller entry, sets the agent-state flag, and starts
exactly one new pipeline task; received while Interrupted, it additionally
clears `isInterrupted`, so the interrupting utterance itself starts the next
turn.  The right-hand records show that nothing else changes. -/
theorem final_event_starts_turn (s s2 : SessionState) (t u : String)
    (h1 : s.isAiSpeaking = false) (h2 : s.isInterrupted = false)
    (hb : isBlank t = false)
    (h3 : s2.isAiSpeaking = false) (h4 : s2.isInterrupted = true)
    (hb2 : isBlank u = false) :
    step s (Action.recvEvent (some t) true)
      = { s with
          conversationHistory := s.conversationHistory ++ [⟨"user", t⟩]
          isAiSpeaking := true
          tasks := s.tasks ++ [TaskState.awaitingLLM] } ∧
    step s2 (Action.recvEvent (some u) true)
      = { s2 with
          isInterrupted := false
          conversationHistory := s2.conversationHistory ++ [⟨"user", u⟩]
          isAiSpeaking := true
          tasks := s2.tasks ++ [TaskState.awaitingLLM] } :=
  ⟨step_final_idle s t h1 h2 hb, step_final_interrupted s2 u h3 h4 hb2⟩

/-- Closed witness for C5: an Idle state receiving final "hello" and an
Interrupted state receiving final "never mind". -/
theorem final_event_starts_turn_witness :
    step
      { conversationHistory := []
        isAiSpeaking := false
        isInterrupted := false
        wsOpen := true
        sent := []
        tasks := [TaskState.done] }
      (Action.recvEvent (some "hello") true)
      = { conversationHistory := [⟨"user", "hello"⟩]
          isAiSpeaking := true
          isInterrupted := false
          wsOpen := true
          sent := []
          tasks := [TaskState.done, TaskState.awaitingLLM] } ∧
    step
      { conversationHistory := [⟨"user", "hello"⟩]
        isAiSpeaking := false
        isInterrupted := true
        wsOpen := true
        sent := [OutMsg.stopPlaying]
        tasks := [TaskState.done, TaskState.awaitingLLM] }
      (Action.recvEvent (some "never mind") true)
      = { conversationHistory := [⟨"user", "hello"⟩, ⟨"user", "never mind"⟩]
          isAiSpeaking := true
          isInterrupted := false
          wsOpen := true
          sent := [OutMsg.stopPlaying]
          tasks := [TaskState.done, TaskState.awaitingLLM,
                    TaskState.awaitingLLM] } := by
  have h := final_event_starts_turn
    { conversationHistory := []
      isAiSpeaking := false
      isInterrupted := false
      wsOpen := true
      sent := []
      tasks := [TaskState.done] }
    { conversationHistory := [⟨"user", "hello"⟩]
      isAiSpeaking := false
      isInterrupted := true
      wsOpen := true
      sent := [OutMsg.stopPlaying]
      tasks := [TaskState.done, TaskState.awaitingLLM] }
    "hello" "never mind" rfl rfl (by decide) rfl rfl (by decide)
  exact ⟨h.1.trans (by decide), h.2.trans (by decide)⟩

/-- C7: a rejected language-model call on a turn suspended at Stage 1 clears
the agent-state flag, terminates that task, and changes nothing else — no
history entry, nothing sent to the caller, the socket stays open; a rejected
synthesis call on a turn suspended at Stage 2 does the same, so the reply
appended before Stage 2 remains in history and no audio is sent. -/
theorem collaborator_failure_contained (s s2 : SessionState) (i j : Nat)
    (r : String)
    (h1 : s.tasks[i]? = some TaskState.awaitingLLM)
    (h2 : s2.tasks[j]? = some (TaskState.awaitingTTS r)) :
    step s (Action.resumeLLM i (Except.error ()))
      = { s with isAiSpeaking := false, tasks := s.tasks.set i TaskState.done } ∧
    step s2 (Action.resumeTTS j (Except.error ()))
      = { s2 with
          isAiSpeaking := false
          tasks := s2.tasks.set j TaskState.done } :=
  ⟨step_llm_error s i h1, step_tts_error s2 j r h2⟩

/-- Closed witness for C7: a session with a turn at Stage 1 whose model call
fails, and a session with a turn at Stage 2 whose synthesis call fails. -/
theorem collaborator_failure_contained_witness :
    step
      { conversationHistory := [⟨"user", "hello"⟩]
        isAiSpeaking := true
        isInterrupted := false
        wsOpen := true
        sent := []
        tasks := [TaskState.done, TaskState.awaitingLLM] }
      (Action.resumeLLM 1 (Except.error ()))
      = { conversationHistory := [⟨"user", "hello"⟩]
          isAiSpeaking := false
          isInterrupted := false
          wsOpen := true
          sent := []
          tasks := [TaskState.done, TaskState.done] } ∧
    step
      { conversationHistory := [⟨"user", "hello"⟩, ⟨"assistant", "reply"⟩]
        isAiSpeaking := true
        isInterrupted := false
        wsOpen := true
        sent := []
        tasks := [TaskState.done, TaskState.awaitingTTS "reply"] }
      (Action.resumeTTS 1 (Except.error ()))
      = { conversationHistory := [⟨"user", "hello"⟩, ⟨"assistant", "reply"⟩]
          isAiSpeaking := false
          isInterrupted := false
          wsOpen := true
          sent := []
          tasks := [TaskState.done, TaskState.done] } := by
  have h := collaborator_failure_contained
    { conversationHistory := [⟨"user", "hello"⟩]
      isAiSpeaking := true
      isInterrupted := false
      wsOpen := true
      sent := []
      tasks := [TaskState.done, TaskState.awaitingLLM] }
    { conversationHistory := [⟨"user", "hello"⟩, ⟨"assistant", "reply"⟩]
      isAiSpeaking := true
      isInterrupted := false
      wsOpen := true
      sent := []
      tasks := [TaskState.done, TaskState.awaitingTTS "reply"] }
    1 1 "reply" rfl rfl
  exact ⟨h.1.trans (by decide), h.2.trans (by decide)⟩

/-- C8: from any session state, running any action sequence only ever
extends the dialogue history on the right: what was already recorded is
never reordered, overwritten, or truncated. -/
theorem history_append_only (s : SessionState) (acts : List Action) :
    ∃ l, (steps s acts).conversationHistory = s.conversationHistory ++ l :=
  steps_history s acts

/-- C9: two pipeline runs from states with the same dialogue history, both
Idle with the socket open, driven by the same finalized utterance and the
same stubbed collaborator replies, with no intervening cancellation, produce
identical observable effects: the same two history appends and the same
single audio delivery. -/
theorem pipeline_deterministic (s1 s2 : SessionState) (h : List Entry)
    (t r a : String)
    (e1 : s1.conversationHistory = h) (e2 : s2.conversationHistory = h)
    (i1 : s1.isAiSpeaking = false) (i2 : s1.isInterrupted = false)
    (i3 : s2.isAiSpeaking = false) (i4 : s2.isInterrupted = false)
    (w1 : s1.wsOpen = true) (w2 : s2.wsOpen = true)
    (hb : isBlank t = false) :
    (steps s1 [Action.recvEvent (some t) true,
               Action.resumeLLM s1.tasks.length (Except.ok r),
               Action.resumeTTS s1.tasks.length (Except.ok a)]).conversationHistory
      = h ++ [⟨"user", t⟩, ⟨"assistant", r⟩] ∧
    (steps s2 [Action.recvEvent (some t) true,
               Action.resumeLLM s2.tasks.length (Except.ok r),
               Action.resumeTTS s2.tasks.length (Except.ok a)]).conversationHistory
      = h ++ [⟨"user", t⟩, ⟨"assistant", r⟩] ∧
    (steps s1 [Action.recvEvent (some t) true,
               Action.resumeLLM s1.tasks.length (Except.ok r),
               Action.resumeTTS s1.tasks.length (Except.ok a)]).sent
      = s1.sent ++ [OutMsg.audio a] ∧
    (steps s2 [Action.recvEvent (some t) true,
               Action.resumeLLM s2.tasks.length (Except.ok r),
               Action.resumeTTS s2.tasks.length (Except.ok a)]).sent
      = s2.sent ++ [OutMsg.audio a] := by
  rw [run_turn s1 t r a i1 i2 w1 hb, run_turn s2 t r a i3 i4 w2 hb]
  simp [e1, e2]

/-- Closed witness for C9: two different Idle sessions sharing the history
of one greeting exchange, run on the same utterance and stubs. -/
theorem pipeline_deterministic_witness :
    (steps
      { conversationHistory := [⟨"user", "hello"⟩]
        isAiSpeaking := false
        isInterrupted := false
        wsOpen := true
        sent := [OutMsg.stopPlaying]
        tasks := [TaskState.done] }
      [Action.recvEvent (some "dog hair") true,
       Action.resumeLLM 1 (Except.ok "reply"),
       Action.resumeTTS 1 (Except.ok "opus")]).conversationHistory
      = [⟨"user", "hello"⟩] ++ [⟨"user", "dog hair"⟩, ⟨"assistant", "reply"⟩] ∧
    (steps
      { conversationHistory := [⟨"user", "hello"⟩]
        isAiSpeaking := false
        isInterrupted := false
        wsOpen := true
        sent := []
        tasks := [] }
      [Action.recvEvent (some "dog hair") true,
       Action.resumeLLM 0 (Except.ok "reply"),
       Action.resumeTTS 0 (Except.ok "opus")]).conversationHistory
      = [⟨"user", "hello"⟩] ++ [⟨"user", "dog hair"⟩, ⟨"assistant", "reply"⟩] ∧
    (steps
      { conversationHistory := [⟨"user", "hello"⟩]
        isAiSpeaking := false
        isInterrupted := false
        wsOpen := true
        sent := [OutMsg.stopPlaying]
        tasks := [TaskState.done] }
      [Action.recvEvent (some "dog hair") true,
       Action.resumeLLM 1 (Except.ok "reply"),
       Action.resumeTTS 1 (Except.ok "opus")]).sent
      = [OutMsg.stopPlaying, OutMsg.audio "opus"] ∧
    (steps
      { conversationHistory := [⟨"user", "hello"⟩]
        isAiSpeaking := false
        isInterrupted := false
        wsOpen := true
        sent := []
        tasks := [] }
      [Action.recvEvent (some "dog hair") true,
       Action.resumeLLM 0 (Except.ok "reply"),
       Action.resumeTTS 0 (Except.ok "opus")]).sent
      = [OutMsg.audio "opus"] := by
  have h := pipeline_deterministic
    { conversationHistory := [⟨"user", "hello"⟩]
      isAiSpeaking := false
      isInterrupted := false
      wsOpen := true
      sent := [OutMsg.stopPlaying]
      tasks := [TaskState.done] }
    { conversationHistory := [⟨"user", "hello"⟩]
      isAiSpeaking := false
      isInterrupted := false
      wsOpen := true
      sent := []
      tasks := [] }
    [⟨"user", "hello"⟩] "dog hair" "reply" "opus"
    rfl rfl rfl rfl rfl rfl rfl rfl (by decide)
  exact ⟨h.1, h.2.1, h.2.2.1.trans (by decide), h.2.2.2.trans (by decide)⟩

/-- C10: in every state reachable from session start, between atomic
event-loop blocks, `isAiSpeaking` and `isInterrupted` are never both true:
every block that sets one of them clears the other or runs with the other
already false. -/
theorem flags_mutually_exclusive (acts : List Action) :
    (steps initialState acts).isAiSpeaking = false
      ∨ (steps initialState acts).isInterrupted = false := by
  have hb := flags_steps acts
  cases hsp : (steps initialState acts).isAiSpeaking with
  | false => exact Or.inl rfl
  | true =>
    cases hin : (steps initialState acts).isInterrupted with
    | false => exact Or.inr rfl
    | true =>
      rw [hsp, hin] at hb
      exact absurd hb (by decide)

end VoiceSession
